import Mathlib

/-
Verification development for the Iris Electron / Baileys session manager.

The definitions below are a shallow embedding of the repository's
WhatsAppService (src/unnamed/part_002) and of parseDeeplink
(src/unnamed/part_001, lines 558-642).  JavaScript string primitives
(split, trim, indexOf, toLowerCase, startsWith, includes,
decodeURIComponent, URLSearchParams decoding) are modelled by structural
functions over `List Char` so that every definition evaluates inside the
kernel.  Asynchronous effects (event emission, socket teardown,
credential-store wipe, setTimeout re-initialization) are made explicit as
an `Effect` list; the credential store is modelled by a generation
counter so that "reuses pre-wipe material" is expressible.
-/

/-! ## JavaScript string primitives (ASCII-faithful models) -/

/-- Model of JS `s.split(sep)` for a one-character separator. -/
def splitChar (sep : Char) : List Char → List (List Char)
  | [] => [[]]
  | c :: rest =>
    if c = sep then [] :: splitChar sep rest
    else
      match splitChar sep rest with
      | h :: t => (c :: h) :: t
      | [] => [[c]]

/-- Model of JS `hay.indexOf(needle)` (as an `Option Nat` instead of `-1`). -/
def firstIdx (l sub : List Char) : Option Nat :=
  if sub.isPrefixOf l then some 0
  else
    match l with
    | [] => none
    | _ :: t => (firstIdx t sub).map (· + 1)

/-- Model of JS `s.split(sep)[0]`. -/
def jsSplitHead (s : String) (sep : Char) : String :=
  String.mk ((splitChar sep s.toList).headD [])

/-- Model of JS `s.startsWith(p)`. -/
def strStartsWith (s p : String) : Bool :=
  p.toList.isPrefixOf s.toList

/-- Model of JS `s.includes(c)` for a single character. -/
def strContainsChar (s : String) (c : Char) : Bool :=
  s.toList.contains c

/-- Model of JS `s.substring(n)`. -/
def strDrop (s : String) (n : Nat) : String :=
  String.mk (s.toList.drop n)

/-- Model of JS `s.length` (code points). -/
def strLength (s : String) : Nat :=
  s.toList.length

/-- Model of JS `s.endsWith(suf)`. -/
def strEndsWith (s suf : String) : Bool :=
  suf.toList.isSuffixOf s.toList

/-- Model of JS `c.toLowerCase()` applied per character (ASCII). -/
def strToLower (s : String) : String :=
  String.mk (s.toList.map Char.toLower)

/-- JS whitespace class used by `String.prototype.trim` (ASCII part). -/
def jsWhite (c : Char) : Bool :=
  c == ' ' || c == '\t' || c == '\n' || c == '\r' || c.toNat == 11 || c.toNat == 12

/-- Model of JS `s.trim()`. -/
def jsTrim (s : String) : String :=
  String.mk (((s.toList.dropWhile jsWhite).reverse.dropWhile jsWhite).reverse)

/-- Model of JS `array.join(sep)` for the only separator the code uses. -/
def joinAmp : List String → String
  | [] => ""
  | [s] => s
  | s :: rest => s ++ "&" ++ joinAmp rest

/-- JS truthiness of a `string | null | undefined` value: only a present,
non-empty string is truthy. -/
def jsTruthyS : Option String → Bool
  | some s => decide (s ≠ "")
  | none => false

/-- JS `a || b` on `string | null | undefined` values. -/
def jsOr (a b : Option String) : Option String :=
  match a with
  | some s => if s = "" then b else some s
  | none => b

/-- JS `s || undefined` on a plain string. -/
def jsOrUndef (s : String) : Option String :=
  if s = "" then none else some s

/-- Hexadecimal digit value of a character, if any. -/
def hexVal? (c : Char) : Option Nat :=
  let n := c.toNat
  if 48 ≤ n && n ≤ 57 then some (n - 48)
  else if 65 ≤ n && n ≤ 70 then some (n - 55)
  else if 97 ≤ n && n ≤ 102 then some (n - 87)
  else none

/-- Worker for `formDecode`; the `Nat` is recursion fuel, always called
with at least the length of the list, so the `0, l => l` arm (needed only
to make the recursion structural) is never reached. -/
def formDecodeAux : Nat → List Char → List Char
  | _, [] => []
  | 0, l => l
  | Nat.succ fuel, c :: rest =>
    if c = '+' then ' ' :: formDecodeAux fuel rest
    else if c = '%' then
      match rest with
      | h1 :: h2 :: rest2 =>
        (match hexVal? h1, hexVal? h2 with
         | some a, some b => Char.ofNat (a * 16 + b) :: formDecodeAux fuel rest2
         | _, _ => '%' :: formDecodeAux fuel rest)
      | _ => '%' :: formDecodeAux fuel rest
    else c :: formDecodeAux fuel rest

/-- `application/x-www-form-urlencoded` decoding used by `URLSearchParams`:
`+` becomes a space, a valid `%XX` escape becomes the coded byte, and an
invalid `%` sequence is kept literally (ASCII model). -/
def formDecode (l : List Char) : List Char :=
  formDecodeAux l.length l

/-- Model of JS `decodeURIComponent`: `none` models a thrown `URIError`
on a malformed `%` escape (ASCII model; `+` is not special here). -/
def decodeURIComp? : List Char → Option (List Char)
  | [] => some []
  | c :: rest =>
    if c = '%' then
      match rest with
      | h1 :: h2 :: rest2 =>
        (match hexVal? h1, hexVal? h2 with
         | some a, some b => (decodeURIComp? rest2).map (fun t => Char.ofNat (a * 16 + b) :: t)
         | _, _ => none)
      | _ => none
    else (decodeURIComp? rest).map (fun t => c :: t)

/-- Base64 alphabet value of a character, if any. -/
def b64Val? (c : Char) : Option Nat :=
  let n := c.toNat
  if 65 ≤ n && n ≤ 90 then some (n - 65)
  else if 97 ≤ n && n ≤ 122 then some (n - 71)
  else if 48 ≤ n && n ≤ 57 then some (n + 4)
  else if c == '+' then some 62
  else if c == '/' then some 63
  else none

/-- Decode groups of base64 sextets into bytes. -/
def b64Groups : List Nat → List Nat
  | a :: b :: c :: d :: rest =>
    (a * 4 + b / 16) :: ((b % 16) * 16 + c / 4) :: ((c % 4) * 64 + d) :: b64Groups rest
  | [a, b] => [a * 4 + b / 16]
  | [a, b, c] => [a * 4 + b / 16, (b % 16) * 16 + c / 4]
  | _ => []

/-- Model of Node `Buffer.from(s, 'base64')` on well-formed input:
non-alphabet characters are ignored, decoding stops at padding. -/
def base64Decode (s : String) : List Nat :=
  b64Groups ((s.toList.takeWhile (fun c => c ≠ '=')).filterMap b64Val?)

/-! ## Data model of the Session Manager (src/unnamed/part_002) -/

/-- Baileys `ConnectionState` string union `'connecting' | 'open' | 'close'`. -/
inductive ConnectionState
  | connecting
  | open_
  | close_
deriving DecidableEq, Repr

/-- The transport-supplied self identity: `socket.user.id` / `socket.user.jid`. -/
structure WAUser where
  id : Option String
  jid : Option String
deriving DecidableEq, Repr

/-- A live transport handle (the Baileys socket).  `authGen` records which
generation of credential material the socket was opened with. -/
structure Sock where
  authGen : Nat
  user : Option WAUser
deriving DecidableEq, Repr

/-- The mutable fields of `WhatsAppService`. -/
structure Svc where
  socket : Option Sock
  currentQR : Option String
  currentStatus : ConnectionState
  isInitializing : Bool
  phoneNumber : Option String
deriving DecidableEq, Repr

/-- A `connection.update` event: optional connection signal, optional
`lastDisconnect` (itself carrying an optional Boom status code), optional
QR payload. -/
structure WAUpdate where
  connection : Option ConnectionState
  lastDisconnect : Option (Option Nat)
  qr : Option String
deriving DecidableEq, Repr

/-- Observable side effects of the service, in program order. -/
inductive Effect
  | emitStatus (c : ConnectionState)
  | emitQr (q : Option String)
  | endSocket
  | wipeStore
  | scheduleInit (delayMs : Nat)
deriving DecidableEq, Repr

/-- `DisconnectReason.loggedOut` from the Baileys library. -/
def DisconnectReason.loggedOut : Nat := 401

/-- The world: service state, credential store contents (a generation
number; `none` = wiped/absent), and a fresh-generation counter. -/
structure World where
  svc : Svc
  store : Option Nat
  nextGen : Nat
deriving DecidableEq, Repr

/-- State right after `new WhatsAppService()` with a given pre-existing
store (the auth directory may already hold credentials). -/
def mkWorld (st : Option Nat) (ng : Nat) : World :=
  { svc := { socket := none, currentQR := none, currentStatus := ConnectionState.close_,
             isInitializing := false, phoneNumber := none },
    store := st, nextGen := ng }

/-- `clearAuthState()`: wipe every file in the auth directory. -/
def clearAuthState (w : World) : World :=
  { w with store := none }

/-- `useMultiFileAuthState(dir)`: load existing material or create fresh
material.  Returns (material used, new store contents, new counter). -/
def loadOrCreateAuth (store : Option Nat) (nextGen : Nat) : Nat × Option Nat × Nat :=
  match store with
  | some g => (g, some g, nextGen)
  | none => (nextGen, some nextGen, nextGen + 1)

/-- `initialize()` up to the registration of the event handler: the
`isInitializing` guard, teardown of any previous socket, credential load,
and `makeWASocket`.  The transport-assigned `user` identity of the new
socket is supplied by the environment. -/
def initSession (w : World) (user : Option WAUser) : World :=
  if w.svc.isInitializing then w
  else
    let afterEnd : Svc := { w.svc with isInitializing := true, socket := none }
    let l := loadOrCreateAuth w.store w.nextGen
    { w with
      svc := { afterEnd with socket := some { authGen := l.1, user := user } },
      store := l.2.1, nextGen := l.2.2 }

/-- Handler lines 98-101: `if (connection) this.currentStatus = connection`. -/
def step1 (svc : Svc) (e : WAUpdate) : Svc × List Effect :=
  match e.connection with
  | some c => ({ svc with currentStatus := c }, [Effect.emitStatus c])
  | none => (svc, [])

/-- Handler lines 104-114: cache a truthy QR payload, otherwise clear the
cached QR when the connection opened. -/
def step2 (svc : Svc) (e : WAUpdate) : Svc × List Effect :=
  if jsTruthyS e.qr = true then
    ({ svc with currentQR := e.qr }, [Effect.emitQr e.qr])
  else if jsTruthyS svc.currentQR = true ∧ e.connection = some ConnectionState.open_ then
    ({ svc with currentQR := none }, [Effect.emitQr none])
  else (svc, [])

/-- `this.socket?.user?.id || this.socket?.user?.jid`. -/
def effectiveUserJid (s : Option Sock) : Option String :=
  jsOr (s.bind fun k => k.user.bind WAUser.id) (s.bind fun k => k.user.bind WAUser.jid)

/-- Handler lines 160-177: derive the phone number from a (truthy) user
JID: segment before `@`, then before `:`, then strip the `91` country
code when the string has more than 10 characters.  Returns `none` when
the part before `@` is empty (`if (jidPart)` falsy). -/
def extractPhoneFromJid (userJid : String) : Option String :=
  let jidPart := jsSplitHead userJid '@'
  if jidPart = "" then none
  else
    let withoutDeviceId := jsSplitHead jidPart ':'
    some (if strStartsWith withoutDeviceId "91" = true ∧ strLength withoutDeviceId > 10
          then strDrop withoutDeviceId 2 else withoutDeviceId)

/-- The `connection.update` handler (lines 94-186), as a function from a
world and an event to the new world plus the emitted effects. -/
def handleConnectionUpdate (w : World) (e : WAUpdate) : World × List Effect :=
  let s1 := step1 w.svc e
  let s2 := step2 s1.1 e
  if e.connection = some ConnectionState.close_ ∨ e.lastDisconnect ≠ none then
    -- disconnect branch (lines 117-150)
    let statusCode := e.lastDisconnect.bind id
    let endEffs : List Effect := if s2.1.socket.isSome then [Effect.endSocket] else []
    let svc3 : Svc := { s2.1 with
      socket := none, currentQR := none, phoneNumber := none,
      currentStatus := ConnectionState.close_, isInitializing := false }
    let wiped : Bool := statusCode == some DisconnectReason.loggedOut
    ({ w with svc := svc3, store := if wiped then none else w.store },
     s1.2 ++ s2.2 ++ endEffs ++ [Effect.emitQr none, Effect.emitStatus ConnectionState.close_]
       ++ (if wiped then [Effect.wipeStore] else []) ++ [Effect.scheduleInit 3000])
  else if e.connection = some ConnectionState.open_ then
    -- open branch (lines 151-185)
    let svcO : Svc := { s2.1 with currentStatus := ConnectionState.open_ }
    let svcP : Svc :=
      match effectiveUserJid svcO.socket with
      | some j =>
        if j = "" then svcO
        else
          match extractPhoneFromJid j with
          | some p => { svcO with phoneNumber := some p }
          | none => svcO
      | none => svcO
    ({ w with svc := { svcP with isInitializing := false } },
     s1.2 ++ s2.2 ++ [Effect.emitStatus ConnectionState.open_])
  else
    ({ w with svc := s2.1 }, s1.2 ++ s2.2)

/-- `getQR()`. -/
def getQR (w : World) : Option String := w.svc.currentQR

/-- `getStatus()`. -/
def getStatus (w : World) : ConnectionState := w.svc.currentStatus

/-- `disconnect()`: end the socket if there is one; the status field is
left untouched. -/
def disconnect (w : World) : World × List Effect :=
  match w.svc.socket with
  | some _ => ({ w with svc := { w.svc with socket := none } }, [Effect.endSocket])
  | none => (w, [])

/-- `logout()` (lines 357-397): wipe the store, end the socket, clear the
cached fields, emit the updates, and schedule a re-initialization after
1000 ms. -/
def logout (w : World) : World × List Effect :=
  let w1 := clearAuthState w
  let d := disconnect w1
  ({ d.1 with
      svc := { d.1.svc with
        currentQR := none, phoneNumber := none,
        currentStatus := ConnectionState.close_, isInitializing := false } },
   Effect.wipeStore :: d.2 ++ [Effect.emitQr none, Effect.emitStatus ConnectionState.close_,
     Effect.scheduleInit 1000])

/-! ## Outbound send pipeline (sendMessage, lines 245-348) -/

/-- The optional attachment of `SendMessageParams`. -/
structure DocumentPayload where
  data : String
  mimeType : String
  filename : String
deriving DecidableEq, Repr

structure SendMessageParams where
  phone : String
  message : String
  document : Option DocumentPayload
deriving DecidableEq, Repr

structure SendMessageResult where
  success : Bool
  error : Option String
deriving DecidableEq, Repr

/-- A call to `socket.sendMessage(jid, content)`, by content shape. -/
inductive Dispatch
  | text (jid : String) (body : String)
  | image (jid : String) (bytes : List Nat) (caption : Option String) (mimetype : String)
  | document (jid : String) (bytes : List Nat) (mimetype : String) (fileName : String)
      (caption : Option String)
deriving DecidableEq, Repr

def dispatchJid : Dispatch → String
  | Dispatch.text j _ => j
  | Dispatch.image j _ _ _ => j
  | Dispatch.document j _ _ _ _ => j

def dispatchCaption : Dispatch → Option String
  | Dispatch.text _ _ => none
  | Dispatch.image _ _ c _ => c
  | Dispatch.document _ _ _ _ c => c

def notConnectedMsg : String := "WhatsApp is not connected. Please wait for connection."
def socketUnavailableMsg : String := "WhatsApp socket is not available."
def phoneRequiredMsg : String := "Phone number is required."
def messageRequiredMsg : String := "Message text is required."

/-- `sendMessage(params)`: validation, jid construction, and dispatch.
The returned list holds the `socket.sendMessage` calls actually issued
(transport-level dispatch failures are external and not modelled). -/
def sendMessage (svc : Svc) (p : SendMessageParams) : SendMessageResult × List Dispatch :=
  if svc.currentStatus ≠ ConnectionState.open_ then
    ({ success := false, error := some notConnectedMsg }, [])
  else if svc.socket.isNone then
    ({ success := false, error := some socketUnavailableMsg }, [])
  else
    let phoneNumber := jsTrim p.phone
    if phoneNumber = "" then
      ({ success := false, error := some phoneRequiredMsg }, [])
    else
      let jid := if strContainsChar phoneNumber '@' then phoneNumber
                 else phoneNumber ++ "@s.whatsapp.net"
      match p.document with
      | some doc =>
        let documentBuffer := base64Decode doc.data
        let mimeType := strToLower doc.mimeType
        if strStartsWith mimeType "image/" then
          ({ success := true, error := none },
           [Dispatch.image jid documentBuffer (jsOrUndef p.message) doc.mimeType])
        else
          ({ success := true, error := none },
           [Dispatch.document jid documentBuffer doc.mimeType doc.filename
              (jsOrUndef p.message)])
      | none =>
        if jsTrim p.message = "" then
          ({ success := false, error := some messageRequiredMsg }, [])
        else
          ({ success := true, error := none }, [Dispatch.text jid (jsTrim p.message)])

/-! ## Deep-Link Router (parseDeeplink, src/unnamed/part_001 lines 558-642) -/

/-- WHATWG URL scheme check: `new URL` throws unless the input starts
with `alpha (alphanum | + | - | .)* :`. -/
def schemeOk : List Char → Bool
  | [] => false
  | c :: rest => c.isAlpha && rest.all (fun d => d.isAlphanum || d == '+' || d == '-' || d == '.')

/-- Model of `new URL(url)`, retaining only what `parseDeeplink` reads:
the raw query string (after the first `?` and before any `#`).  `none`
models a thrown `TypeError`. -/
def urlParse (url : String) : Option String :=
  let cs := url.toList
  match firstIdx cs [':'] with
  | none => none
  | some i =>
    if schemeOk (cs.take i) then
      let rest := (cs.drop (i + 1)).takeWhile (fun c => c ≠ '#')
      match firstIdx rest ['?'] with
      | none => some ""
      | some j => some (String.mk (rest.drop (j + 1)))
    else none

/-- `URLSearchParams` over a raw query string: split on `&`, skip empty
segments, split each segment at its first `=`, form-decode keys and
values. -/
def formParse (query : String) : List (String × String) :=
  (splitChar '&' query.toList).filterMap (fun seg =>
    if seg.isEmpty then none
    else
      match firstIdx seg ['='] with
      | none => some (String.mk (formDecode seg), "")
      | some i =>
        some (String.mk (formDecode (seg.take i)), String.mk (formDecode (seg.drop (i + 1)))))

/-- `searchParams.get(key)`: first matching entry's value. -/
def searchParamsGet (pairs : List (String × String)) (key : String) : Option String :=
  (pairs.find? (fun p => decide (p.1 = key))).map Prod.snd

/-- The `urlParamNames` vocabulary from `parseDeeplink`. -/
def urlParamNames : List String :=
  ["message", "phone", "id", "token", "code", "state", "data", "params"]

/-- The reconstruction loop: `key=value` for each later entry whose value
is truthy. -/
def reconstructExtras (allParams : List (String × String)) (idx : Nat) : List String :=
  (allParams.drop (idx + 1)).filterMap (fun p => if p.2 ≠ "" then some (p.1 ++ "=" ++ p.2) else none)

/-- The manual-extraction fallback of `parseDeeplink` (lines 615-637). -/
def fallbackExtract (url : String) : Option String :=
  let cs := url.toList
  match firstIdx cs ['?'] with
  | none => none
  | some qs =>
    let queryString := cs.drop (qs + 1)
    match firstIdx queryString ("openLink=".toList) with
    | none => none
    | some i =>
      let remaining := queryString.drop (i + 9)
      match decodeURIComp? remaining with
      | some d => some (String.mk d)
      | none => some (String.mk remaining)

/-- `parseDeeplink(url)` (lines 558-642). -/
def parseDeeplink (url : String) : Option String :=
  match urlParse url with
  | none => none
  | some q =>
    let allParams := formParse q
    match searchParamsGet allParams "openLink" with
    | some v =>
      if v ≠ "" then
        if allParams.length > 1 then
          match allParams.findIdx? (fun p => decide (p.1 = "openLink")) with
          | some idx =>
            if idx < allParams.length - 1 then
              let subsequent := allParams.drop (idx + 1)
              let looksLikeUrlParams := subsequent.any (fun p => urlParamNames.contains (strToLower p.1))
              if !(strContainsChar v '&') || looksLikeUrlParams then
                some (joinAmp (v :: reconstructExtras allParams idx))
              else some v
            else some v
          | none => some v
        else some v
      else fallbackExtract url
    | none => fallbackExtract url

/-- Whether the parsed URL has a query parameter named exactly `openLink`. -/
def hasOpenLinkQueryParamB (url : String) : Bool :=
  match urlParse url with
  | some q => (formParse q).any (fun p => decide (p.1 = "openLink"))
  | none => false

/-- Whether the raw input contains the substring `openLink=`. -/
def hasOpenLinkMarkerB (url : String) : Bool :=
  (firstIdx url.toList ("openLink=".toList)).isSome

/-! ## Trace machinery for the lifecycle claims -/

/-- An atomic action of the single logical event-processing sequence. -/
inductive Act
  | init (user : Option WAUser)
  | ev (e : WAUpdate)
  | fireInit (user : Option WAUser)
  | doLogout
deriving Repr

def stepAct (w : World) : Act → World
  | Act.init u => initSession w u
  | Act.ev e => (handleConnectionUpdate w e).1
  | Act.fireInit u => initSession w u
  | Act.doLogout => (logout w).1

def runActs (w : World) : List Act → World
  | [] => w
  | a :: as => runActs (stepAct w a) as

/-- Discipline on a single action: a truthy QR payload neither rides on an
open signal nor arrives while an identity is cached. -/
def okActB (w : World) : Act → Bool
  | Act.ev e =>
    !jsTruthyS e.qr ||
      (!(decide (e.connection = some ConnectionState.open_)) && w.svc.phoneNumber.isNone)
  | _ => true

def qrOkB : World → List Act → Bool
  | _, [] => true
  | w, a :: as => okActB w a && qrOkB (stepAct w a) as

/-- Invariant: QR cache and identity cache are not both populated, and the
QR cache never holds the (JS-falsy) empty string. -/
def InvW (w : World) : Prop :=
  (w.svc.currentQR = none ∨ w.svc.phoneNumber = none) ∧ w.svc.currentQR ≠ some ""

def isScheduleInit : Effect → Bool
  | Effect.scheduleInit _ => true
  | _ => false

/-- Modelled from the spec: the identity extraction exactly as the claim
words it — truncate at the domain separator, truncate at the first colon,
strip the fixed-length country-code prefix whenever present (with no
length proviso).  Used only for the refinement comparison of C5. -/
def specPhoneOfJid (userJid : String) : String :=
  let beforeAt := jsSplitHead userJid '@'
  let beforeColon := jsSplitHead beforeAt ':'
  if strStartsWith beforeColon "91" = true then strDrop beforeColon 2 else beforeColon

/-- A service state with an open connection and a live socket, for the
send-pipeline witnesses. -/
def svcOpen : Svc :=
  { socket := some { authGen := 0, user := none }, currentQR := none,
    currentStatus := ConnectionState.open_, isInitializing := false, phoneNumber := none }

/-- The world of the C4 counterexample: boot, initialize, receive an OPEN
event, then `disconnect()` — this leaves `currentStatus = open` while the
socket is gone, because `disconnect()` never updates the status field. -/
def c4CexWorld : World :=
  (disconnect (handleConnectionUpdate (initSession (mkWorld none 0) none)
      { connection := some ConnectionState.open_, lastDisconnect := none, qr := none }).1).1

/-! ## Helper lemmas -/

lemma aux_find?_eq_none {α : Type} (f : α → Bool) (l : List α) (h : l.any f = false) :
    l.find? f = none := by
  induction l with
  | nil => rfl
  | cons a t ih =>
    rw [List.any_cons, Bool.or_eq_false_iff] at h
    rw [List.find?_cons, h.1]
    exact ih h.2

lemma aux_firstIdx_drop_none (sub : List Char) (k : Nat) (l : List Char)
    (h : firstIdx l sub = none) : firstIdx (l.drop k) sub = none := by
  induction k generalizing l with
  | zero => simpa using h
  | succ k ih =>
    cases l with
    | nil => simpa using h
    | cons c t =>
      have ht : firstIdx t sub = none := by
        rw [firstIdx] at h
        by_cases hp : sub.isPrefixOf (c :: t) = true
        · rw [if_pos hp] at h; cases h
        · rw [if_neg hp] at h
          cases hfi : firstIdx t sub with
          | none => rfl
          | some v => rw [hfi] at h; simp at h
      simpa using ih t ht

lemma aux_filter_schedule_step1 (svc : Svc) (e : WAUpdate) :
    ((step1 svc e).2).filter isScheduleInit = [] := by
  rcases e with ⟨conn, ld, qr⟩
  cases conn <;> simp [step1, isScheduleInit]

lemma aux_filter_schedule_step2 (svc : Svc) (e : WAUpdate) :
    ((step2 svc e).2).filter isScheduleInit = [] := by
  unfold step2
  split_ifs <;> simp [isScheduleInit]

lemma aux_filter_schedule_end (c : Prop) [Decidable c] :
    ((if c then [Effect.endSocket] else []).filter isScheduleInit) = [] := by
  split <;> simp [isScheduleInit]

lemma aux_filter_schedule_wipe (c : Prop) [Decidable c] :
    ((if c then [Effect.wipeStore] else []).filter isScheduleInit) = [] := by
  split <;> simp [isScheduleInit]

/-! ## Deep-link claims -/

/-- C8: `parseDeeplink` applied to `iris://?openLink=https://example.com/a?x=1&y=2`
returns the full embedded URL `https://example.com/a?x=1&y=2`, reconstructed
from the parameters split at the unencoded ampersand, not a value truncated
at the first ampersand. -/
theorem c8_deeplink_full_url :
    parseDeeplink "iris://?openLink=https://example.com/a?x=1&y=2"
      = some "https://example.com/a?x=1&y=2" := by decide

/-- C9 counterexample: the input `iris://?xopenLink=abc` has no query
parameter named `openLink`, yet `parseDeeplink` returns `abc` (the
manual-extraction fallback matches the substring `openLink=` inside the
`xopenLink` key), refuting "every input with no openLink parameter yields
null" as stated. -/
theorem c9_deeplink_null_counterexample :
    parseDeeplink "iris://?xopenLink=abc" = some "abc"
    ∧ hasOpenLinkQueryParamB "iris://?xopenLink=abc" = false := by decide

/-- C9 (amended): `parseDeeplink` is a total function returning the
extracted value or null; every input that neither has a query parameter
named `openLink` nor contains the raw substring `openLink=` yields null. -/
theorem c9_deeplink_null (url : String)
    (h1 : hasOpenLinkQueryParamB url = false)
    (h2 : hasOpenLinkMarkerB url = false) :
    parseDeeplink url = none := by
  have hnone : firstIdx url.toList ("openLink=".toList) = none := by
    unfold hasOpenLinkMarkerB at h2
    cases hfi : firstIdx url.toList ("openLink=".toList) with
    | none => rfl
    | some v => rw [hfi] at h2; simp at h2
  have hfall : fallbackExtract url = none := by
    simp only [fallbackExtract]
    cases hq : firstIdx url.toList ['?'] with
    | none => rfl
    | some qs => simp only [aux_firstIdx_drop_none _ _ _ hnone]
  unfold parseDeeplink
  unfold hasOpenLinkQueryParamB at h1
  cases hu : urlParse url with
  | none => rfl
  | some q =>
    rw [hu] at h1
    have hget : searchParamsGet (formParse q) "openLink" = none := by
      unfold searchParamsGet
      rw [aux_find?_eq_none _ _ h1]
      rfl
    simp only [hget]
    exact hfall

/-- C9 witness: a concrete input without the parameter and without the
marker parses to null. -/
theorem c9_deeplink_null_witness : parseDeeplink "iris://?foo=1" = none :=
  c9_deeplink_null "iris://?foo=1" (by decide) (by decide)

/-! ## Send-pipeline claims -/

/-- C4 counterexample: in the reachable state with `currentStatus = open`
but no socket (after `disconnect()`), `send(target="", text="hello")`
returns the socket-unavailable error, not the invalid-target error the
claim requires for every empty target at status OPEN. -/
theorem c4_send_validation_counterexample :
    c4CexWorld.svc.currentStatus = ConnectionState.open_
    ∧ sendMessage c4CexWorld.svc { phone := "", message := "hello", document := none }
        = ({ success := false, error := some socketUnavailableMsg }, [])
    ∧ socketUnavailableMsg ≠ phoneRequiredMsg := by decide

/-- C4 (amended): with status not OPEN, `send` returns the not-connected
error and dispatches nothing; with status OPEN and a live socket, an empty
trimmed target yields the invalid-target error, and a non-empty target
with no attachment and empty trimmed text yields the empty-message error
(in each case with no dispatch). -/
theorem c4_send_validation (svc : Svc) (p : SendMessageParams) :
    (svc.currentStatus ≠ ConnectionState.open_ →
      sendMessage svc p = ({ success := false, error := some notConnectedMsg }, []))
    ∧ (svc.currentStatus = ConnectionState.open_ → svc.socket.isNone = false →
        jsTrim p.phone = "" →
        sendMessage svc p = ({ success := false, error := some phoneRequiredMsg }, []))
    ∧ (svc.currentStatus = ConnectionState.open_ → svc.socket.isNone = false →
        jsTrim p.phone ≠ "" → p.document = none → jsTrim p.message = "" →
        sendMessage svc p = ({ success := false, error := some messageRequiredMsg }, [])) := by
  refine ⟨?_, ?_, ?_⟩
  · intro h
    simp [sendMessage, h]
  · intro h1 h2 h3
    simp [sendMessage, h1, h2, h3]
  · intro h1 h2 h3 h4 h5
    simp [sendMessage, h1, h2, h3, h4, h5]

/-- C4 witness: the three validation outcomes at concrete inputs. -/
theorem c4_send_validation_witness :
    (sendMessage { svcOpen with currentStatus := ConnectionState.connecting }
        { phone := "5", message := "hello", document := none }
      = ({ success := false, error := some notConnectedMsg }, []))
    ∧ (sendMessage svcOpen { phone := " ", message := "hello", document := none }
      = ({ success := false, error := some phoneRequiredMsg }, []))
    ∧ (sendMessage svcOpen { phone := "5", message := "  ", document := none }
      = ({ success := false, error := some messageRequiredMsg }, [])) :=
  ⟨(c4_send_validation { svcOpen with currentStatus := ConnectionState.connecting }
      { phone := "5", message := "hello", document := none }).1 (by decide),
   (c4_send_validation svcOpen { phone := " ", message := "hello", document := none }).2.1
      (by decide) (by decide) (by decide),
   (c4_send_validation svcOpen { phone := "5", message := "  ", document := none }).2.2
      (by decide) (by decide) (by decide) (by decide) (by decide)⟩

/-- C6 counterexample: the target `123@c.us` does not carry the platform
domain suffix `@s.whatsapp.net`, yet the dispatch goes to `123@c.us`
unchanged — the code only tests for the presence of a `@` character, so
the canonical suffix is not appended as the claim states. -/
theorem c6_jid_suffix_counterexample :
    sendMessage svcOpen { phone := "123@c.us", message := "hi", document := none }
      = ({ success := true, error := none }, [Dispatch.text "123@c.us" "hi"])
    ∧ strEndsWith "123@c.us" "@s.whatsapp.net" = false := by decide

/-- C6 (amended): for every send call that passes validation, each
dispatch is addressed to the trimmed target with `@s.whatsapp.net`
appended when the target contains no `@` character, and to the trimmed
target unchanged when it already contains a `@` (whether or not that is
the canonical platform suffix). -/
theorem c6_jid_suffix (svc : Svc) (p : SendMessageParams)
    (h1 : svc.currentStatus = ConnectionState.open_)
    (h2 : svc.socket.isNone = false)
    (h3 : jsTrim p.phone ≠ "") :
    ∀ d ∈ (sendMessage svc p).2,
      dispatchJid d = (if strContainsChar (jsTrim p.phone) '@' then jsTrim p.phone
                       else jsTrim p.phone ++ "@s.whatsapp.net") := by
  obtain ⟨sock, qr, st, ini, ph⟩ := svc
  simp only at h1 h2
  subst h1
  cases sock with
  | none => simp at h2
  | some k =>
    intro d hd
    simp only [sendMessage] at hd
    rw [if_neg (by simp)] at hd
    rw [if_neg (by simp)] at hd
    rw [if_neg h3] at hd
    rcases hdoc : p.document with _ | doc <;> rw [hdoc] at hd <;> simp at hd
    · split at hd
      · simp at hd
      · simp at hd
        subst hd
        rfl
    · split at hd <;> (simp at hd; subst hd; rfl)

/-- C6 witness: a bare target gets the canonical suffix appended. -/
theorem c6_jid_suffix_witness :
    dispatchJid (Dispatch.text "5@s.whatsapp.net" "hi") = "5@s.whatsapp.net" :=
  c6_jid_suffix svcOpen { phone := "5", message := "hi", document := none }
    (by decide) (by decide) (by decide)
    (Dispatch.text "5@s.whatsapp.net" "hi") (by decide)

/-- C7: a validated send with an `image/png` attachment is dispatched as an
inline image with the caption taken from `text` and the MIME type carried
through; an `application/pdf` attachment is dispatched as a named document
with the same caption, the filename, and the MIME type unchanged.  The
classification is the `image/` prefix check on the lower-cased MIME type. -/
theorem c7_attachment_dispatch (svc : Svc) (p : SendMessageParams) (doc : DocumentPayload)
    (h1 : svc.currentStatus = ConnectionState.open_)
    (h2 : svc.socket.isNone = false)
    (h3 : jsTrim p.phone ≠ "")
    (hdoc : p.document = some doc) :
    (doc.mimeType = "image/png" →
      sendMessage svc p = ({ success := true, error := none },
        [Dispatch.image (if strContainsChar (jsTrim p.phone) '@' = true then jsTrim p.phone
            else jsTrim p.phone ++ "@s.whatsapp.net")
          (base64Decode doc.data) (jsOrUndef p.message) "image/png"]))
    ∧ (doc.mimeType = "application/pdf" →
      sendMessage svc p = ({ success := true, error := none },
        [Dispatch.document (if strContainsChar (jsTrim p.phone) '@' = true then jsTrim p.phone
            else jsTrim p.phone ++ "@s.whatsapp.net")
          (base64Decode doc.data) "application/pdf" doc.filename (jsOrUndef p.message)])) := by
  obtain ⟨sock, qr, st, ini, ph⟩ := svc
  simp only at h1 h2
  subst h1
  cases sock with
  | none => simp at h2
  | some k =>
    constructor
    · intro hm
      simp only [sendMessage]
      rw [if_neg (by simp), if_neg (by simp), if_neg h3, hdoc]
      simp only [hm]
      rw [if_pos (by decide)]
    · intro hm
      simp only [sendMessage]
      rw [if_neg (by simp), if_neg (by simp), if_neg h3, hdoc]
      simp only [hm]
      rw [if_neg (by decide)]

/-- C7 witness: concrete image and PDF attachments, with the dispatches
fully evaluated (the base64 payload `QUJD` decodes to bytes 65 66 67). -/
theorem c7_attachment_dispatch_witness :
    sendMessage svcOpen
        { phone := "5", message := "cap",
          document := some { data := "QUJD", mimeType := "image/png", filename := "a.png" } }
      = ({ success := true, error := none },
         [Dispatch.image "5@s.whatsapp.net" [65, 66, 67] (some "cap") "image/png"])
    ∧ sendMessage svcOpen
        { phone := "5", message := "cap",
          document := some { data := "QUJD", mimeType := "application/pdf", filename := "a.pdf" } }
      = ({ success := true, error := none },
         [Dispatch.document "5@s.whatsapp.net" [65, 66, 67] "application/pdf" "a.pdf"
            (some "cap")]) := by
  constructor
  · have h := (c7_attachment_dispatch svcOpen
      { phone := "5", message := "cap",
        document := some { data := "QUJD", mimeType := "image/png", filename := "a.png" } }
      { data := "QUJD", mimeType := "image/png", filename := "a.png" }
      (by decide) (by decide) (by decide) rfl).1 rfl
    exact h.trans (by decide)
  · have h := (c7_attachment_dispatch svcOpen
      { phone := "5", message := "cap",
        document := some { data := "QUJD", mimeType := "application/pdf", filename := "a.pdf" } }
      { data := "QUJD", mimeType := "application/pdf", filename := "a.pdf" }
      (by decide) (by decide) (by decide) rfl).2 rfl
    exact h.trans (by decide)

/-- C10 counterexample: with an attachment present, an all-whitespace text
is accepted, but the dispatched message carries the whitespace text as its
caption — the caption field is `some " "`, not absent as the claim
states. -/
theorem c10_caption_counterexample :
    sendMessage svcOpen
        { phone := "1", message := " ",
          document := some { data := "", mimeType := "image/png", filename := "f.png" } }
      = ({ success := true, error := none },
         [Dispatch.image "1@s.whatsapp.net" [] (some " ") "image/png"])
    ∧ dispatchCaption (Dispatch.image "1@s.whatsapp.net" [] (some " ") "image/png") ≠ none := by
  decide

/-- C10 (amended): when an attachment is present the empty-message
validation is skipped and the send succeeds for any text; the dispatched
caption is `text || undefined` — absent exactly when the text is the empty
string, and the text verbatim (untrimmed, including all-whitespace text)
otherwise.  Text-only messages are dispatched with the text trimmed. -/
theorem c10_caption_handling (svc : Svc) (p : SendMessageParams)
    (h1 : svc.currentStatus = ConnectionState.open_)
    (h2 : svc.socket.isNone = false)
    (h3 : jsTrim p.phone ≠ "") :
    (∀ doc, p.document = some doc →
      (sendMessage svc p).1 = { success := true, error := none }
      ∧ ∀ d ∈ (sendMessage svc p).2, dispatchCaption d = jsOrUndef p.message)
    ∧ (p.document = none → jsTrim p.message ≠ "" →
      (sendMessage svc p).2
        = [Dispatch.text (if strContainsChar (jsTrim p.phone) '@' = true then jsTrim p.phone
            else jsTrim p.phone ++ "@s.whatsapp.net") (jsTrim p.message)]) := by
  obtain ⟨sock, qr, st, ini, ph⟩ := svc
  simp only at h1 h2
  subst h1
  cases sock with
  | none => simp at h2
  | some k =>
    constructor
    · intro doc hdoc
      refine ⟨?_, ?_⟩
      · simp only [sendMessage]
        rw [if_neg (by simp), if_neg (by simp), if_neg h3, hdoc]
        simp only []
        split <;> rfl
      · intro d hd
        simp only [sendMessage] at hd
        rw [if_neg (by simp), if_neg (by simp), if_neg h3, hdoc] at hd
        simp at hd
        split at hd <;> (simp at hd; subst hd; rfl)
    · intro hdoc hm
      simp only [sendMessage]
      rw [if_neg (by simp), if_neg (by simp), if_neg h3, hdoc]
      simp only []
      rw [if_neg hm]

/-- C10 witness: empty text with a PDF attachment succeeds with an absent
caption; an untrimmed text-only message is dispatched trimmed. -/
theorem c10_caption_handling_witness :
    ((sendMessage svcOpen
        { phone := "7", message := "",
          document := some { data := "", mimeType := "application/pdf", filename := "d.pdf" } }).1
      = { success := true, error := none })
    ∧ dispatchCaption (Dispatch.document "7@s.whatsapp.net" [] "application/pdf" "d.pdf" none)
        = none
    ∧ (sendMessage svcOpen { phone := "7", message := " hi ", document := none }).2
        = [Dispatch.text "7@s.whatsapp.net" "hi"] := by
  refine ⟨?_, ?_, ?_⟩
  · exact ((c10_caption_handling svcOpen
        { phone := "7", message := "",
          document := some { data := "", mimeType := "application/pdf", filename := "d.pdf" } }
        (by decide) (by decide) (by decide)).1 _ rfl).1
  · have h := ((c10_caption_handling svcOpen
        { phone := "7", message := "",
          document := some { data := "", mimeType := "application/pdf", filename := "d.pdf" } }
        (by decide) (by decide) (by decide)).1 _ rfl).2
      (Dispatch.document "7@s.whatsapp.net" [] "application/pdf" "d.pdf" none) (by decide)
    exact h.trans (by decide)
  · have h := (c10_caption_handling svcOpen { phone := "7", message := " hi ", document := none }
        (by decide) (by decide) (by decide)).2 rfl (by decide)
    exact h.trans (by decide)

/-- C2: on every close-branch activation of the `connection.update`
handler (a `close` signal or any `lastDisconnect`, whatever its cause
code), exactly one re-initialization is scheduled — with the fixed
3000 ms delay, as the last emitted effect — the `isInitializing` guard is
false in the resulting state, and an `initialize()` fired on that state is
not suppressed by the guard (it proceeds and opens a socket). -/
theorem c2_close_reinit (w : World) (e : WAUpdate) (u : Option WAUser)
    (h : e.connection = some ConnectionState.close_ ∨ e.lastDisconnect ≠ none) :
    (handleConnectionUpdate w e).2.filter isScheduleInit = [Effect.scheduleInit 3000]
    ∧ (handleConnectionUpdate w e).2.getLast? = some (Effect.scheduleInit 3000)
    ∧ (handleConnectionUpdate w e).1.svc.isInitializing = false
    ∧ (initSession (handleConnectionUpdate w e).1 u).svc.isInitializing = true
    ∧ ((initSession (handleConnectionUpdate w e).1 u).svc.socket).isSome = true := by
  simp only [handleConnectionUpdate]
  rw [if_pos h]
  refine ⟨?_, ?_, ?_, ?_, ?_⟩
  · simp [List.filter_append, aux_filter_schedule_step1, aux_filter_schedule_step2,
      aux_filter_schedule_end, aux_filter_schedule_wipe, isScheduleInit]
  · simp [List.getLast?_append_cons]
    split <;> rfl
  · rfl
  · rfl
  · rfl


/-- C3: both on `logout()` and on a close whose cause code is
`DisconnectReason.loggedOut` (401), the credential store is already wiped
in the resulting state (for logout, the wipe is the first emitted effect
and the re-initialization is scheduled last), so the scheduled
re-initialization loads a fresh credential generation: the new socket's
material equals the fresh `nextGen` and differs from every pre-wipe
generation `g`. -/
theorem c3_wipe_before_reinit (w : World) (g : Nat) (u : Option WAUser) (e : WAUpdate)
    (hg : w.store = some g) (hlt : g < w.nextGen)
    (he : e.lastDisconnect = some (some DisconnectReason.loggedOut)) :
    ((logout w).1.store = none
      ∧ (logout w).2.head? = some Effect.wipeStore
      ∧ (logout w).2.getLast? = some (Effect.scheduleInit 1000)
      ∧ ∃ s, (initSession (logout w).1 u).svc.socket = some s
          ∧ s.authGen = w.nextGen ∧ s.authGen ≠ g)
    ∧ ((handleConnectionUpdate w e).1.store = none
      ∧ (handleConnectionUpdate w e).2.getLast? = some (Effect.scheduleInit 3000)
      ∧ ∃ s, (initSession (handleConnectionUpdate w e).1 u).svc.socket = some s
          ∧ s.authGen = w.nextGen ∧ s.authGen ≠ g) := by
  obtain ⟨⟨sock, qr, st, ini, ph⟩, store, ng⟩ := w
  simp only at hg hlt
  subst hg
  rcases e with ⟨conn, ld, qr2⟩
  simp only at he
  subst he
  constructor
  · cases sock with
    | none =>
      refine ⟨rfl, rfl, rfl, ⟨{ authGen := ng, user := u }, rfl, rfl, ?_⟩⟩
      simp only []
      omega
    | some k =>
      refine ⟨rfl, rfl, rfl, ⟨{ authGen := ng, user := u }, rfl, rfl, ?_⟩⟩
      simp only []
      omega
  · have hcond : (some ConnectionState.close_ = some ConnectionState.close_ ∨
        (some (some DisconnectReason.loggedOut) : Option (Option Nat)) ≠ none) := by
      right
      simp
    simp only [handleConnectionUpdate]
    rw [if_pos (Or.inr (by simp : (some (some DisconnectReason.loggedOut) : Option (Option Nat)) ≠ none))]
    refine ⟨rfl, ?_, ⟨{ authGen := ng, user := u }, rfl, rfl, ?_⟩⟩
    · simp [List.getLast?_append_cons]
    · simp only []
      omega


lemma aux_step1_socket (svc : Svc) (e : WAUpdate) : (step1 svc e).1.socket = svc.socket := by
  rcases e with ⟨conn, ld, qr⟩
  cases conn <;> rfl

lemma aux_step1_phone (svc : Svc) (e : WAUpdate) :
    (step1 svc e).1.phoneNumber = svc.phoneNumber := by
  rcases e with ⟨conn, ld, qr⟩
  cases conn <;> rfl

lemma aux_step2_socket (svc : Svc) (e : WAUpdate) : (step2 svc e).1.socket = svc.socket := by
  unfold step2
  split_ifs <;> rfl

lemma aux_step2_phone (svc : Svc) (e : WAUpdate) :
    (step2 svc e).1.phoneNumber = svc.phoneNumber := by
  unfold step2
  split_ifs <;> rfl

/-- C5 (amended): on every OPEN transition (no disconnect in the event),
status reports OPEN and the guard clears; the cached identity becomes the
self-identity truncated at `@`, then at the first `:`, with the `91`
country-code prefix stripped only when the remaining string is longer
than 10 characters; when the effective self-identity is missing (or is
the empty/`@`-leading malformed string) the cached identity is left
unchanged — in particular it remains null — and this is not an error. -/
theorem c5_identity_extraction (w : World) (e : WAUpdate)
    (hconn : e.connection = some ConnectionState.open_)
    (hld : e.lastDisconnect = none) :
    (handleConnectionUpdate w e).1.svc.currentStatus = ConnectionState.open_
    ∧ (handleConnectionUpdate w e).1.svc.isInitializing = false
    ∧ (handleConnectionUpdate w e).1.svc.phoneNumber =
        (match effectiveUserJid w.svc.socket with
         | some j =>
            if j = "" then w.svc.phoneNumber
            else
              match extractPhoneFromJid j with
              | some p => some p
              | none => w.svc.phoneNumber
         | none => w.svc.phoneNumber) := by
  rcases e with ⟨conn, ld, qr⟩
  simp only at hconn hld
  subst hconn
  subst hld
  simp only [handleConnectionUpdate]
  rw [if_neg (by simp), if_pos trivial]
  rw [aux_step2_socket, aux_step1_socket]
  cases hj : effectiveUserJid w.svc.socket with
  | none =>
    refine ⟨rfl, rfl, ?_⟩
    simp only []
    rw [aux_step2_phone, aux_step1_phone]
  | some j =>
    by_cases hjj : j = ""
    · subst hjj
      refine ⟨rfl, rfl, ?_⟩
      rw [aux_step2_phone, aux_step1_phone]
      rfl
    · cases hp : extractPhoneFromJid j with
      | none =>
        refine ⟨?_, ?_, ?_⟩ <;> simp only [if_neg hjj] <;> rw [hp] <;>
          first
          | rfl
          | (rw [aux_step2_phone, aux_step1_phone])
      | some pn =>
        refine ⟨?_, ?_, ?_⟩ <;> simp only [if_neg hjj] <;> rw [hp]


/-- A JS-falsy optional string that is not the empty string is absent. -/
lemma aux_not_truthy (o : Option String) (h1 : jsTruthyS o = false) (h2 : o ≠ some "") :
    o = none := by
  cases o with
  | none => rfl
  | some s =>
    simp [jsTruthyS] at h1
    subst h1
    exact absurd rfl h2

lemma aux_truthy_ne (o : Option String) (h : jsTruthyS o = true) : o ≠ some "" := by
  intro hc
  subst hc
  simp [jsTruthyS] at h

lemma aux_step1_qr (svc : Svc) (e : WAUpdate) :
    (step1 svc e).1.currentQR = svc.currentQR := by
  rcases e with ⟨conn, ld, qr⟩
  cases conn <;> rfl

lemma aux_step2_qr_truthy (svc : Svc) (e : WAUpdate) (h : jsTruthyS e.qr = true) :
    (step2 svc e).1.currentQR = e.qr := by
  unfold step2
  rw [if_pos h]

lemma aux_step2_qr_skip (svc : Svc) (e : WAUpdate) (h1 : jsTruthyS e.qr = false)
    (h2 : ¬(e.connection = some ConnectionState.open_)) :
    (step2 svc e).1.currentQR = svc.currentQR := by
  unfold step2
  rw [if_neg (by simp [h1]), if_neg (fun hc => h2 hc.2)]

lemma aux_step2_qr_open_clear (svc : Svc) (e : WAUpdate)
    (h1 : jsTruthyS e.qr = false) (h2 : e.connection = some ConnectionState.open_)
    (h3 : svc.currentQR ≠ some "") :
    (step2 svc e).1.currentQR = none := by
  unfold step2
  rw [if_neg (by simp [h1])]
  by_cases ht : jsTruthyS svc.currentQR = true
  · rw [if_pos ⟨ht, h2⟩]
  · rw [if_neg (fun hc => ht hc.1)]
    exact aux_not_truthy _ (by simpa using ht) h3

lemma aux_open_qr (w : World) (e : WAUpdate)
    (hconn : e.connection = some ConnectionState.open_) (hld : e.lastDisconnect = none) :
    (handleConnectionUpdate w e).1.svc.currentQR = (step2 (step1 w.svc e).1 e).1.currentQR := by
  rcases e with ⟨conn, ld, qr⟩
  simp only at hconn hld
  subst hconn
  subst hld
  simp only [handleConnectionUpdate]
  rw [if_neg (by simp)]
  rw [if_pos trivial]
  rw [aux_step2_socket, aux_step1_socket]
  cases hj : effectiveUserJid w.svc.socket with
  | none => rfl
  | some j =>
    by_cases hjj : j = ""
    · subst hjj
      rfl
    · simp only [if_neg hjj]
      cases hp : extractPhoneFromJid j <;> rfl

lemma aux_inv_initSession (w : World) (u : Option WAUser) (h : InvW w) :
    InvW (initSession w u) := by
  unfold initSession
  split
  · exact h
  · exact h

lemma aux_inv_logout (w : World) : InvW ((logout w).1) := by
  constructor
  · left
    rfl
  · simp [logout]

lemma aux_inv_ev (w : World) (e : WAUpdate) (h : InvW w)
    (hok : okActB w (Act.ev e) = true) : InvW ((handleConnectionUpdate w e).1) := by
  by_cases hclose : (e.connection = some ConnectionState.close_ ∨ e.lastDisconnect ≠ none)
  · have hq : (handleConnectionUpdate w e).1.svc.currentQR = none := by
      simp only [handleConnectionUpdate]
      rw [if_pos hclose]
    exact ⟨Or.inl hq, by rw [hq]; simp⟩
  · push_neg at hclose
    obtain ⟨hnc, hld⟩ := hclose
    by_cases hopen : e.connection = some ConnectionState.open_
    · have hq2 : jsTruthyS e.qr = false := by
        simp [okActB, hopen] at hok
        exact hok
      have hq : (handleConnectionUpdate w e).1.svc.currentQR = none := by
        rw [aux_open_qr w e hopen hld]
        exact aux_step2_qr_open_clear _ _ hq2 hopen (by rw [aux_step1_qr]; exact h.2)
      exact ⟨Or.inl hq, by rw [hq]; simp⟩
    · have hres : (handleConnectionUpdate w e).1.svc = (step2 (step1 w.svc e).1 e).1 := by
        simp only [handleConnectionUpdate]
        rw [if_neg (fun hor => hor.elim hnc (fun hne => hne hld)), if_neg hopen]
      have hphone : (handleConnectionUpdate w e).1.svc.phoneNumber = w.svc.phoneNumber := by
        rw [hres, aux_step2_phone, aux_step1_phone]
      cases hq : jsTruthyS e.qr with
      | true =>
        have hpn : w.svc.phoneNumber = none := by
          simp [okActB, hq, hopen] at hok
          exact hok
        refine ⟨Or.inr ?_, ?_⟩
        · rw [hphone]
          exact hpn
        · rw [hres, aux_step2_qr_truthy _ _ hq]
          exact aux_truthy_ne _ hq
      | false =>
        refine ⟨?_, ?_⟩
        · rcases h.1 with h1 | h1
          · exact Or.inl (by rw [hres, aux_step2_qr_skip _ _ hq hopen, aux_step1_qr]; exact h1)
          · exact Or.inr (by rw [hphone]; exact h1)
        · rw [hres, aux_step2_qr_skip _ _ hq hopen, aux_step1_qr]
          exact h.2

lemma aux_inv_step (w : World) (a : Act) (h : InvW w) (hok : okActB w a = true) :
    InvW (stepAct w a) := by
  cases a with
  | init u => exact aux_inv_initSession w u h
  | fireInit u => exact aux_inv_initSession w u h
  | doLogout => exact aux_inv_logout w
  | ev e => exact aux_inv_ev w e h hok

lemma aux_inv_run (as : List Act) : ∀ w, InvW w → qrOkB w as = true → InvW (runActs w as) := by
  induction as with
  | nil => exact fun w h _ => h
  | cons a as ih =>
    intro w h hok
    simp only [qrOkB, Bool.and_eq_true] at hok
    exact ih (stepAct w a) (aux_inv_step w a h hok.1) hok.2


/-- C1 counterexample: an event carrying both a QR payload and an `open`
signal leaves the cached pairing challenge and the cached identity
simultaneously non-null: the QR branch caches the payload (its
else-branch clearing is skipped), and the open branch then caches the
extracted identity. -/
theorem c1_qr_identity_counterexample :
    ((handleConnectionUpdate
        (initSession (mkWorld none 0)
          (some { id := some "15551234567@s.whatsapp.net", jid := none }))
        { connection := some ConnectionState.open_, lastDisconnect := none,
          qr := some "QR-1" }).1.svc.currentQR = some "QR-1")
    ∧ ((handleConnectionUpdate
        (initSession (mkWorld none 0)
          (some { id := some "15551234567@s.whatsapp.net", jid := none }))
        { connection := some ConnectionState.open_, lastDisconnect := none,
          qr := some "QR-1" }).1.svc.phoneNumber = some "15551234567") := by decide

/-- C1 (amended): for every action sequence from a fresh service in which
each event carrying a (truthy) QR payload neither carries an `open`
signal in the same event nor arrives while the cached identity is
non-null, the cached pairing challenge and the cached identity are never
simultaneously non-null. -/
theorem c1_qr_identity_invariant (st : Option Nat) (ng : Nat) (as : List Act)
    (h : qrOkB (mkWorld st ng) as = true) :
    (runActs (mkWorld st ng) as).svc.currentQR = none
    ∨ (runActs (mkWorld st ng) as).svc.phoneNumber = none :=
  (aux_inv_run as (mkWorld st ng) ⟨Or.inl rfl, by simp [mkWorld]⟩ h).1

/-- C1 witness: a disciplined boot - QR - open trace keeps the invariant. -/
theorem c1_qr_identity_invariant_witness :
    (runActs (mkWorld none 0)
        [Act.init (some { id := some "15551234567@s.whatsapp.net", jid := none }),
         Act.ev { connection := some ConnectionState.connecting, lastDisconnect := none,
                  qr := some "QR-1" },
         Act.ev { connection := some ConnectionState.open_, lastDisconnect := none,
                  qr := none }]).svc.currentQR = none
    ∨ (runActs (mkWorld none 0)
        [Act.init (some { id := some "15551234567@s.whatsapp.net", jid := none }),
         Act.ev { connection := some ConnectionState.connecting, lastDisconnect := none,
                  qr := some "QR-1" },
         Act.ev { connection := some ConnectionState.open_, lastDisconnect := none,
                  qr := none }]).svc.phoneNumber = none :=
  c1_qr_identity_invariant none 0
    [Act.init (some { id := some "15551234567@s.whatsapp.net", jid := none }),
     Act.ev { connection := some ConnectionState.connecting, lastDisconnect := none,
              qr := some "QR-1" },
     Act.ev { connection := some ConnectionState.open_, lastDisconnect := none,
              qr := none }] (by decide)

/-- C5 counterexample: for the self-identity `9112345678@s.whatsapp.net`
the `91` prefix is present but the string is not longer than 10
characters, so the code caches `9112345678`, while the claim's rule
("prefix stripped when present", modelled by `specPhoneOfJid`) yields
`12345678`. -/
theorem c5_identity_extraction_counterexample :
    ((handleConnectionUpdate
        (initSession (mkWorld none 0)
          (some { id := some "9112345678@s.whatsapp.net", jid := none }))
        { connection := some ConnectionState.open_, lastDisconnect := none,
          qr := none }).1.svc.phoneNumber = some "9112345678")
    ∧ specPhoneOfJid "9112345678@s.whatsapp.net" = "12345678"
    ∧ ("9112345678" : String) ≠ "12345678" := by decide

/-- C2 witness: the close handler at a concrete state schedules exactly
one 3000 ms re-initialization and resets the guard. -/
theorem c2_close_reinit_witness :
    (handleConnectionUpdate (mkWorld (some 0) 1)
        { connection := some ConnectionState.close_, lastDisconnect := none,
          qr := none }).2.filter isScheduleInit = [Effect.scheduleInit 3000]
    ∧ (handleConnectionUpdate (mkWorld (some 0) 1)
        { connection := some ConnectionState.close_, lastDisconnect := none,
          qr := none }).1.svc.isInitializing = false := by
  have h := c2_close_reinit (mkWorld (some 0) 1)
    { connection := some ConnectionState.close_, lastDisconnect := none, qr := none } none
    (Or.inl rfl)
  exact ⟨h.1, h.2.2.1⟩

/-- C3 witness: from a store holding generation 5, logout wipes the store
and the subsequent initialization opens a socket with fresh generation 6;
a 401-close wipes the store as well. -/
theorem c3_wipe_before_reinit_witness :
    (logout (mkWorld (some 5) 6)).1.store = none
    ∧ (∃ s, (initSession (logout (mkWorld (some 5) 6)).1 none).svc.socket = some s
        ∧ s.authGen = 6 ∧ s.authGen ≠ 5)
    ∧ (handleConnectionUpdate (mkWorld (some 5) 6)
        { connection := none, lastDisconnect := some (some DisconnectReason.loggedOut),
          qr := none }).1.store = none := by
  have h := c3_wipe_before_reinit (mkWorld (some 5) 6) 5 none
    { connection := none, lastDisconnect := some (some DisconnectReason.loggedOut), qr := none }
    rfl (by decide) rfl
  exact ⟨h.1.1, h.1.2.2.2, h.2.1⟩

/-- C5 witness: a concrete OPEN event extracts and caches the phone
number with the country code stripped. -/
theorem c5_identity_extraction_witness :
    (handleConnectionUpdate
        { svc :=
            { socket :=
                some { authGen := 0,
                       user := some { id := some "15551234567@s.whatsapp.net", jid := none } },
              currentQR := none, currentStatus := ConnectionState.connecting,
              isInitializing := true, phoneNumber := none },
          store := some 0, nextGen := 1 }
        { connection := some ConnectionState.open_, lastDisconnect := none,
          qr := none }).1.svc.currentStatus = ConnectionState.open_
    ∧ (handleConnectionUpdate
        { svc :=
            { socket :=
                some { authGen := 0,
                       user := some { id := some "15551234567@s.whatsapp.net", jid := none } },
              currentQR := none, currentStatus := ConnectionState.connecting,
              isInitializing := true, phoneNumber := none },
          store := some 0, nextGen := 1 }
        { connection := some ConnectionState.open_, lastDisconnect := none,
          qr := none }).1.svc.phoneNumber = some "15551234567" := by
  have h := c5_identity_extraction
    { svc :=
        { socket :=
            some { authGen := 0,
                   user := some { id := some "15551234567@s.whatsapp.net", jid := none } },
          currentQR := none, currentStatus := ConnectionState.connecting,
          isInitializing := true, phoneNumber := none },
      store := some 0, nextGen := 1 }
    { connection := some ConnectionState.open_, lastDisconnect := none, qr := none }
    rfl rfl
  exact ⟨h.1, h.2.2.trans (by decide)⟩
